import Mathlib

/-!
Shallow embedding of the core translation pipeline of the `ai-book-translator`
repository: the text chunker (`src/translation/chunker.py`), the progress
tracker (`src/translation/progress.py`), the chunk-level retry loops
(`src/translation/chapter_translator.py`, `src/translation/translator.py`,
`src/translation/chapter_processor.py`) and the chapter/book orchestration
(`src/translation/chapter_processor.py`, `src/translation/book_translator.py`,
`src/translation/translator.py`).

Python strings are modelled as `List Char`; wall-clock timestamp fields of the
progress records are not modelled (no claim mentions them); `print` calls are
side-effect-free and dropped.  The chunker's `logger.debug` statements refer to
a name `logger` that is not defined in the enclosing scope (it is a local
variable of `split_text` only), so both split helpers raise `NameError` on
every call; the split methods are therefore embedded with name resolution
modelled (`split_text_py`, `split_by_sentences_py`,
`split_html_by_sentences_py`), while the algorithmic components the statements
after the failing reference would run — sentence splitting, the accumulation
loop, chunk cleaning — are embedded as separate functions (`split_sentences`,
`splitLoop`, `clean_chunks`).
-/

set_option autoImplicit false

deriving instance DecidableEq for Except

namespace BookTx

/-- Python strings, modelled as lists of characters. -/
abbrev Str := List Char

/-- Python `str.strip()`: remove leading and trailing whitespace. -/
def pyStrip (s : Str) : Str :=
  ((s.dropWhile Char.isWhitespace).reverse.dropWhile Char.isWhitespace).reverse

/-- Exception values raised by the modelled Python code. -/
inductive PyExc where
  | progressError (msg : String)
  | translationError (msg : String)
  | raised (msg : String)
  | nameError (name : String)
  | attributeError (attr : String)
deriving DecidableEq

/-- Python `str(e)` for the modelled exceptions. -/
def pyExcMsg : PyExc → String
  | .progressError m => m
  | .translationError m => m
  | .raised m => m
  | .nameError n => "name " ++ n ++ " is not defined"
  | .attributeError a => "ProgressTracker object has no attribute " ++ a

/-! ### Chunker (`src/translation/chunker.py`, class `TextChunker`) -/

/-- Configuration of `TextChunker.__init__` (chunker.py lines 25-44). -/
structure TextChunker where
  max_chunk_size : Nat
  overlap_size : Nat
  preserve_html : Bool
  min_chunk_size : Nat
deriving DecidableEq

/-- Characters `.`, `!`, `?`, the sentence-ending set of the regexes in
chunker.py (`(?<=[.!?])\s+`). -/
def isSentenceEnd (c : Char) : Bool :=
  c = '.' || c = '!' || c = '?'

/-- Whether the (reversed) current piece ends with a sentence-ending
character, i.e. the regex lookbehind `(?<=[.!?])` holds. -/
def headIsSentEnd : Str → Bool
  | [] => false
  | c :: _ => isSentenceEnd c

/-- State machine implementing `re.split(r"(?<=[.!?])\s+", text)`: a separator
is a maximal whitespace run immediately preceded by `.`, `!` or `?`.
Arguments: remaining input, pieces so far (in order), current piece
(reversed), and whether we are inside a separator run. -/
def splitSentencesAux : Str → List Str → Str → Bool → List Str
  | [], pieces, cur, _ => pieces ++ [cur.reverse]
  | c :: rest, pieces, cur, inSep =>
    if inSep then
      if c.isWhitespace then splitSentencesAux rest pieces cur true
      else splitSentencesAux rest pieces [c] false
    else
      if c.isWhitespace && headIsSentEnd cur then
        splitSentencesAux rest (pieces ++ [cur.reverse]) [] true
      else splitSentencesAux rest pieces (c :: cur) false

/-- `TextChunker._split_sentences` (chunker.py lines 185-197):
`re.split(r"(?<=[.!?])\s+", text)` followed by
`[s.strip() for s in sentences if s.strip()]`. -/
def split_sentences (text : Str) : List Str :=
  ((splitSentencesAux text [] [] false).map pyStrip).filter (fun s => s ≠ [])

/-- Regex fragment `[^<]*>` tested at a position: a `>` occurs before any
`<` in the remaining input (body characters of an unclosed tag). -/
def tagCloseAhead : Str → Bool
  | [] => false
  | c :: rest => if c = '>' then true else if c = '<' then false else tagCloseAhead rest

/-- State machine implementing `re.split(r"(?<=[.!?])\s+(?![^<]*>)", html_text)`
(chunker.py line 179): like `splitSentencesAux` but a whitespace run only
separates when the negative lookahead `(?![^<]*>)` holds after it.  Whitespace
characters are neither `<` nor `>`, so `tagCloseAhead` is invariant across the
run and can be tested at its first character. -/
def splitSentencesHtmlAux : Str → List Str → Str → Bool → List Str
  | [], pieces, cur, _ => pieces ++ [cur.reverse]
  | c :: rest, pieces, cur, inSep =>
    if inSep then
      if c.isWhitespace then splitSentencesHtmlAux rest pieces cur true
      else splitSentencesHtmlAux rest pieces [c] false
    else
      if c.isWhitespace && headIsSentEnd cur && !tagCloseAhead rest then
        splitSentencesHtmlAux rest (pieces ++ [cur.reverse]) [] true
      else splitSentencesHtmlAux rest pieces (c :: cur) false

/-- `TextChunker._split_sentences_preserve_html` (chunker.py lines 167-183). -/
def split_sentences_preserve_html (html_text : Str) : List Str :=
  ((splitSentencesHtmlAux html_text [] [] false).map pyStrip).filter (fun s => s ≠ [])

/-- Index of the last `.` in a string, i.e. Python `text.rfind(".")`
(None for `-1`). -/
def rfindDot : Str → Option Nat
  | [] => none
  | c :: rest =>
    match rfindDot rest with
    | some i => some (i + 1)
    | none => if c = '.' then some 0 else none

/-- `TextChunker._get_overlap_text` (chunker.py lines 199-220).  Note Python
`text[-overlap_size:]` is the whole string when `overlap_size = 0`, and
`rfind` returning `-1` always fails the `> overlap_size // 2` test. -/
def get_overlap_text (overlap_size : Nat) (text : Str) : Str :=
  if text.length ≤ overlap_size then text
  else
    let overlap_candidate :=
      if overlap_size = 0 then text else text.drop (text.length - overlap_size)
    match rfindDot overlap_candidate with
    | none => overlap_candidate
    | some sentence_end =>
      if overlap_size / 2 < sentence_end then
        pyStrip (overlap_candidate.drop (sentence_end + 1))
      else overlap_candidate

/-- Python `current_chunk += " " + sentence if current_chunk else sentence`
(chunker.py lines 124, 126, 156, 158). -/
def appendWithSpace (cur s : Str) : Str :=
  if cur = [] then s else cur ++ ' ' :: s

/-- The sentence-accumulation loop shared verbatim by
`TextChunker._split_by_sentences` (chunker.py lines 147-161) and
`TextChunker._split_html_by_sentences` (lines 111-130): arguments are the
remaining sentences, the finished chunks and the current buffer. -/
def splitLoop (tc : TextChunker) : List Str → List Str → Str → List Str
  | [], chunks, cur =>
    if pyStrip cur ≠ [] then chunks ++ [pyStrip cur] else chunks
  | s :: rest, chunks, cur =>
    if tc.max_chunk_size < cur.length + s.length then
      if cur ≠ [] ∧ tc.min_chunk_size ≤ cur.length then
        splitLoop tc rest (chunks ++ [pyStrip cur]) (get_overlap_text tc.overlap_size cur ++ s)
      else
        splitLoop tc rest chunks (appendWithSpace cur s)
    else
      splitLoop tc rest chunks (appendWithSpace cur s)

/-- `TextChunker._has_html_content` (chunker.py lines 222-224):
`re.search(r"<[^>]+>", text)`. -/
def hasHtmlAux : Str → Bool
  | [] => false
  | c :: rest => (c = '<' && tagAfterLt rest) || hasHtmlAux rest
where
  /-- After a `<`: at least one non-`>` character and then a `>`. -/
  tagAfterLt : Str → Bool
    | [] => false
    | c :: rest => c ≠ '>' && tagCloseAhead (c :: rest)

/-- `TextChunker._has_html_content`. -/
def has_html_content (text : Str) : Bool :=
  hasHtmlAux text

/-- Whether a chunk already ends with `.`, `!` or `?`
(Python `chunk.endswith((".", "!", "?"))`, chunker.py line 255). -/
def endsWithSentencePunct (s : Str) : Bool :=
  match s.getLast? with
  | some c => isSentenceEnd c
  | none => false

/-- `TextChunker._clean_chunks` (chunker.py lines 231-259), written as a
recursion over the chunk list instead of a `for` loop over an accumulator. -/
def clean_chunks (tc : TextChunker) : List Str → List Str
  | [] => []
  | chunk :: rest =>
    if pyStrip chunk = [] then clean_chunks tc rest
    else if tc.preserve_html && has_html_content (pyStrip chunk) then
      pyStrip chunk :: clean_chunks tc rest
    else if endsWithSentencePunct (pyStrip chunk) then
      pyStrip chunk :: clean_chunks tc rest
    else (pyStrip chunk ++ ['.']) :: clean_chunks tc rest

/-- `TextChunker.estimate_chunks` (chunker.py lines 261-280).  Subtraction and
division are on `Nat`; this agrees with Python for `overlap_size <
max_chunk_size` (the only case the claims concern — Python would raise
`ZeroDivisionError` at equality and floor negative quotients otherwise). -/
def estimate_chunks (tc : TextChunker) (text : Str) : Nat :=
  if text.length = 0 then 0
  else if text.length ≤ tc.max_chunk_size then 1
  else
    let effective_chunk_size := tc.max_chunk_size - tc.overlap_size
    max 1 ((text.length + effective_chunk_size - 1) / effective_chunk_size)

/-! ### Progress tracker (`src/translation/progress.py`) -/

/-- The `ChapterProgress` dataclass (progress.py lines 15-25), without the
wall-clock `start_time` / `last_update_time` / `estimated_completion_time`
fields, which no claim mentions. -/
structure ChapterProgress where
  chapter_number : Nat
  total_chunks : Nat
  completed_chunks : Nat
  error_count : Nat
deriving DecidableEq

/-- The `ChapterProgress.is_completed` property (progress.py lines 34-37):
`completed_chunks >= total_chunks`. -/
def ChapterProgress.is_completed (cp : ChapterProgress) : Bool :=
  cp.total_chunks ≤ cp.completed_chunks

/-- The `TranslationProgress` dataclass (progress.py lines 58-67), without
the timestamp fields.  The `chapters` dict is modelled as an association
list in insertion order (Python dicts preserve insertion order). -/
structure TranslationProgress where
  total_chapters : Nat
  completed_chapters : Nat
  current_chapter : Nat
  chapters : List (Nat × ChapterProgress)
deriving DecidableEq

/-- Lookup in the `chapters` dict. -/
def lookupChapter : List (Nat × ChapterProgress) → Nat → Option ChapterProgress
  | [], _ => none
  | e :: rest, n => if e.1 = n then some e.2 else lookupChapter rest n

/-- In-place update of key `n` in the `chapters` dict. -/
def setChapter : List (Nat × ChapterProgress) → Nat → ChapterProgress →
    List (Nat × ChapterProgress)
  | [], _, _ => []
  | e :: rest, n, cp => (if e.1 = n then (n, cp) else e) :: setChapter rest n cp

/-- Count of entries whose `is_completed` property holds; the recomputation
`sum(1 for cp in self._progress.chapters.values() if cp.is_completed)` used
at progress.py lines 135-137 and 256-258. -/
def countCompleted (chs : List (Nat × ChapterProgress)) : Nat :=
  (chs.filter (fun e => e.2.is_completed)).length

/-- The tracker's `_progress` field: `None` until a translation is started. -/
abbrev JobState := Option TranslationProgress

/-- `ProgressTracker.start_translation` (progress.py lines 119-153): on
resume, keep the chapter records, update `total_chapters` and recompute
`completed_chapters`; otherwise initialise fresh state. -/
def start_translation (total_chapters : Nat) : JobState → JobState
  | some p =>
    some { p with
      total_chapters := total_chapters
      completed_chapters := countCompleted p.chapters }
  | none =>
    some { total_chapters := total_chapters, completed_chapters := 0,
           current_chapter := 1, chapters := [] }

/-- `ProgressTracker.start_chapter` (progress.py lines 155-194): raises
`ProgressError` if the translation was never started; if the chapter already
exists, update its `total_chunks` in place (preserving `completed_chunks`),
otherwise insert a fresh record; always set `current_chapter`. -/
def start_chapter (chapter_number total_chunks : Nat) : JobState → Except PyExc JobState
  | none => .error (.progressError "Translation not started. Call start_translation first.")
  | some p =>
    match lookupChapter p.chapters chapter_number with
    | some cp =>
      .ok (some { p with
        chapters := setChapter p.chapters chapter_number { cp with total_chunks := total_chunks }
        current_chapter := chapter_number })
    | none =>
      let fresh : ChapterProgress :=
        { chapter_number := chapter_number, total_chunks := total_chunks,
          completed_chunks := 0, error_count := 0 }
      .ok (some { p with
        chapters := p.chapters ++ [(chapter_number, fresh)]
        current_chapter := chapter_number })

/-- `ProgressTracker.update_progress` (progress.py lines 196-238): raises
`ProgressError` if never started; auto-starts the chapter when it is missing
and `total_chunks` is supplied (raising otherwise); then overwrites the
chapter's `completed_chunks` (and `total_chunks` when supplied).  It does NOT
touch the job-level `completed_chapters` counter. -/
def update_progress (chapter_number completed_chunks : Nat) (total_chunks : Option Nat) :
    JobState → Except PyExc JobState
  | none => .error (.progressError "Translation not started. Call start_translation first.")
  | some p =>
    match lookupChapter p.chapters chapter_number, total_chunks with
    | none, none =>
      .error (.progressError "Chapter not started and no total_chunks provided")
    | none, some tc =>
      let fresh : ChapterProgress :=
        { chapter_number := chapter_number, total_chunks := tc,
          completed_chunks := completed_chunks, error_count := 0 }
      .ok (some { p with
        chapters := p.chapters ++ [(chapter_number, fresh)]
        current_chapter := chapter_number })
    | some cp, _ =>
      let cp1 := { cp with
        completed_chunks := completed_chunks
        total_chunks := total_chunks.getD cp.total_chunks }
      .ok (some { p with chapters := setChapter p.chapters chapter_number cp1 })

/-- `ProgressTracker.complete_chapter` (progress.py lines 240-264): raises if
never started; when the chapter exists, force `completed_chunks :=
total_chunks` and recompute `completed_chapters` from scratch; when it does
not exist, do nothing. -/
def complete_chapter (chapter_number : Nat) : JobState → Except PyExc JobState
  | none => .error (.progressError "Translation not started.")
  | some p =>
    match lookupChapter p.chapters chapter_number with
    | some cp =>
      .ok (some { p with
        chapters := setChapter p.chapters chapter_number
          { cp with completed_chunks := cp.total_chunks }
        completed_chapters := countCompleted (setChapter p.chapters chapter_number
          { cp with completed_chunks := cp.total_chunks }) })
    | none => .ok (some p)

/-- `ProgressTracker.record_error` (progress.py lines 266-290): silently
returns when the translation is not started or the chapter unknown;
otherwise increments the chapter's `error_count` only. -/
def record_error (chapter_number : Nat) (_message : String) : JobState → JobState
  | none => none
  | some p =>
    match lookupChapter p.chapters chapter_number with
    | some cp =>
      some { p with chapters := setChapter p.chapters chapter_number { cp with error_count := cp.error_count + 1 } }
    | none => some p

/-- `ProgressTracker.get_chapter_progress` (progress.py lines 292-305):
the resume cursor — `completed_chunks`, or 0 when unknown. -/
def get_chapter_progress (chapter_number : Nat) : JobState → Nat
  | none => 0
  | some p =>
    match lookupChapter p.chapters chapter_number with
    | some cp => cp.completed_chunks
    | none => 0

/-- One mutating tracker call, for reasoning about operation sequences. -/
inductive TrackerOp where
  | startTranslation (total_chapters : Nat)
  | startChapter (chapter_number total_chunks : Nat)
  | updateProgress (chapter_number completed_chunks : Nat) (total_chunks : Option Nat)
  | completeChapter (chapter_number : Nat)
  | recordError (chapter_number : Nat) (message : String)
deriving DecidableEq

/-- Apply one tracker operation. -/
def applyOp : TrackerOp → JobState → Except PyExc JobState
  | .startTranslation t, s => .ok (start_translation t s)
  | .startChapter n tc, s => start_chapter n tc s
  | .updateProgress n c t, s => update_progress n c t s
  | .completeChapter n, s => complete_chapter n s
  | .recordError n m, s => .ok (record_error n m s)

/-- Run a sequence of tracker operations from a starting state. -/
def runOps (ops : List TrackerOp) (s : JobState) : Except PyExc JobState :=
  ops.foldlM (fun st op => applyOp op st) s

/-- Job-level `completed_chapters` as reported by the tracker (0 before
`start_translation`, like `get_progress_summary` reports nothing). -/
def completedChaptersOf : JobState → Nat
  | some p => p.completed_chapters
  | none => 0

/-- Count of completed chapter records in the tracker state. -/
def completedCountOf : JobState → Nat
  | some p => countCompleted p.chapters
  | none => 0

/-- Reported `completed_chapters` after running `ops` from scratch
(0 when the run raised). -/
def ccAfter (ops : List TrackerOp) : Nat :=
  match runOps ops none with
  | .ok s => completedChaptersOf s
  | .error _ => 0

/-- Count of completed chapter records after running `ops` from scratch. -/
def completedCountAfter (ops : List TrackerOp) : Nat :=
  match runOps ops none with
  | .ok s => completedCountOf s
  | .error _ => 0

/-! ### Chunk translation retry loops

The completion service (`self.llm.complete` on the prompt built from a chunk)
is abstracted as an oracle `complete : Nat → Except String String` giving for
each attempt number either the response text or the raised exception's
message.  Each model also returns the list of `time.sleep` durations
performed, in order. -/

/-- Substring test (Python `needle in hay`). -/
def strContains (hay needle : String) : Bool :=
  hay.toList.tails.any (fun t => needle.toList.isPrefixOf t)

/-- Python `str.strip()` on a `String` (same as `pyStrip` on the character
list). -/
def pyStripS (s : String) : String :=
  (pyStrip s.toList).asString

/-- Python `str.lower()`, character by character (adequate for the ASCII
error messages involved). -/
def pyLowerS (s : String) : String :=
  (s.toList.map Char.toLower).asString

/-- The rate-limit classification of `ChapterTranslator._translate_chunk`
(chapter_translator.py line 91) and `BookTranslator._translate_chunk`
(translator.py line 832): `"rate limit" in str(e).lower() or "quota" in
str(e).lower()`. -/
def isRateLimitMsg (msg : String) : Bool :=
  strContains (pyLowerS msg) "rate limit" || strContains (pyLowerS msg) "quota"

/-- Message of the `TranslationError` raised when the attempt budget is
exhausted (chapter_translator.py lines 106-108, translator.py lines 847-849):
it carries the attempt count and the last error. -/
def mkTranslationFailedMsg (attempts : Nat) (lastError : String) : String :=
  "Translation failed after " ++ toString attempts ++ " attempts: " ++ lastError

/-- Error message of attempt `i` (empty for a successful attempt). -/
def errMsgAt (complete : Nat → Except String String) (i : Nat) : String :=
  match complete i with
  | .error e => e
  | .ok _ => ""

/-- Whether attempt `i` of the oracle raises. -/
def isErrAt (complete : Nat → Except String String) (i : Nat) : Bool :=
  match complete i with
  | .error _ => true
  | .ok _ => false

/-- Sleep durations produced by attempts `a, a+1, ..., a+n-1` when each of
them fails: `retry_delay` for a rate-limited error, 5 seconds otherwise. -/
def sleepsSeg (retry_delay : Nat) (complete : Nat → Except String String) : Nat → Nat → List Nat
  | _, 0 => []
  | a, n + 1 =>
    (if isRateLimitMsg (errMsgAt complete a) then retry_delay else 5) ::
      sleepsSeg retry_delay complete (a + 1) n

/-- Prepend one sleep to a retry-loop result (the `time.sleep` before a
`continue`). -/
def sleepCons (delay : Nat) (r : List Nat × Except PyExc String) :
    List Nat × Except PyExc String :=
  (delay :: r.1, r.2)

/-- Account one failed attempt: bump the attempt counter and prepend its
sleep. -/
def retryStep (delay : Nat) (r : Nat × List Nat × Except PyExc String) :
    Nat × List Nat × Except PyExc String :=
  (r.1 + 1, delay :: r.2.1, r.2.2)

namespace ChapterTranslator

/-- Attempt loop of `ChapterTranslator._translate_chunk`
(chapter_translator.py lines 82-108) and the identical
`BookTranslator._translate_chunk` (translator.py lines 823-849): on success
return `response.text.strip()` (no emptiness check); on failure, a non-final
rate-limited attempt sleeps `retry_delay`, any other non-final attempt sleeps
5 seconds, and the final attempt raises `TranslationError`.  `fuel` is
`max_retries - attempt`, so the fuel-0 case is only reached when
`max_retries = 0`, where the loop body never runs and the function returns
`""` (chapter_translator.py line 110, translator.py line 851). -/
def translateChunkAux (max_retries retry_delay : Nat)
    (complete : Nat → Except String String) : Nat → Nat → List Nat × Except PyExc String
  | _, 0 => ([], .ok "")
  | attempt, fuel + 1 =>
    match complete attempt with
    | .ok response => ([], .ok (pyStripS response))
    | .error e =>
      if attempt + 1 < max_retries then
        sleepCons (if isRateLimitMsg e then retry_delay else 5)
          (translateChunkAux max_retries retry_delay complete (attempt + 1) fuel)
      else
        ([], .error (.translationError (mkTranslationFailedMsg max_retries e)))

/-- `ChapterTranslator._translate_chunk` / `BookTranslator._translate_chunk`. -/
def translate_chunk (max_retries retry_delay : Nat)
    (complete : Nat → Except String String) : List Nat × Except PyExc String :=
  translateChunkAux max_retries retry_delay complete 0 max_retries

end ChapterTranslator

namespace ChapterProcessor

/-- Whether attempt `i` is treated as a failure by
`ChapterProcessor._translate_chunk`: a raised exception, or a response that
is empty after stripping (chapter_processor.py lines 158-159 raise
`Exception("Empty translation returned from LLM")` on an empty result). -/
def attemptFails (complete : Nat → Except String String) (i : Nat) : Bool :=
  match complete i with
  | .error _ => true
  | .ok r => pyStripS r = ""

/-- The exception message of a failed attempt `i` as seen by the `except`
handler of `ChapterProcessor._translate_chunk`. -/
def failMsgAt (complete : Nat → Except String String) (i : Nat) : String :=
  match complete i with
  | .error e => e
  | .ok _ => "Empty translation returned from LLM"

/-- Attempt loop of `ChapterProcessor._translate_chunk`
(chapter_processor.py lines 142-173): an empty stripped response raises and
is handled like any other failure; every non-final failure sleeps
`retry_delay` (no rate-limit classification here); the final failure
re-raises the original exception (`raise e`, line 171).  Returns (number of
attempts made, sleeps, outcome).  The fuel-0 case is the post-loop
`raise TranslationError` (line 173), reachable only when `max_retries = 0`. -/
def translateChunkAux (max_retries retry_delay : Nat)
    (complete : Nat → Except String String) : Nat → Nat → Nat × List Nat × Except PyExc String
  | _, 0 =>
    (0, [], .error (.translationError
      ("Failed to translate chunk after " ++ toString max_retries ++ " attempts")))
  | attempt, fuel + 1 =>
    match complete attempt with
    | .ok result =>
      if pyStripS result = "" then
        if attempt + 1 < max_retries then
          retryStep retry_delay
            (translateChunkAux max_retries retry_delay complete (attempt + 1) fuel)
        else
          (1, [], .error (.raised "Empty translation returned from LLM"))
      else
        (1, [], .ok (pyStripS result))
    | .error e =>
      if attempt + 1 < max_retries then
        retryStep retry_delay
          (translateChunkAux max_retries retry_delay complete (attempt + 1) fuel)
      else
        (1, [], .error (.raised e))

/-- `ChapterProcessor._translate_chunk` (chapter_processor.py lines 134-173):
an empty or whitespace-only chunk is returned as `""` without calling the
completion service (lines 136-138); otherwise run the attempt loop. -/
def translate_chunk (max_retries retry_delay : Nat) (text : Str)
    (complete : Nat → Except String String) : Nat × List Nat × Except PyExc String :=
  if pyStrip text = [] then (0, [], .ok "")
  else translateChunkAux max_retries retry_delay complete 0 max_retries

/-- Message of the error recorded and wrapped when chunk `i` (0-based) of a
chapter fails (chapter_processor.py line 69). -/
def mkChunkFailMsg (chapter_num i : Nat) (e : String) : String :=
  "Failed to translate chunk " ++ toString (i + 1) ++ " in chapter " ++
    toString chapter_num ++ ": " ++ e

/-- Message of the `TranslationError` raised by the outer handler of
`process_chapter` (chapter_processor.py line 98). -/
def mkChapterFailMsg (chapter_num : Nat) (e : String) : String :=
  "Failed to process chapter " ++ toString chapter_num ++ ": " ++ e

/-- The chunk loop of `ChapterProcessor.process_chapter`
(chapter_processor.py lines 49-76).  `translate i` abstracts the outcome of
`self._translate_chunk` on chunk `i` (success value, or the message of the
exception escaping its internal retries).  Skipped (already-completed)
chunks are NOT appended to the accumulator, exactly as in the source (the
`continue` on line 56 skips the append).  On a failure the error is recorded
via the tracker and a `TranslationError` is raised. -/
def processChunksLoop (translate : Nat → Except String String) (chapter_num total : Nat) :
    Nat → Nat → JobState → List String → JobState × Except PyExc (List String)
  | _, 0, s, acc => (s, .ok acc.reverse)
  | i, rem + 1, s, acc =>
    if i < get_chapter_progress chapter_num s then
      processChunksLoop translate chapter_num total (i + 1) rem s acc
    else
      match translate i with
      | .ok t =>
        match update_progress chapter_num (i + 1) (some total) s with
        | .ok s1 => processChunksLoop translate chapter_num total (i + 1) rem s1 (t :: acc)
        | .error pe =>
          let msg := mkChunkFailMsg chapter_num i (pyExcMsg pe)
          (record_error chapter_num msg s, .error (.translationError msg))
      | .error e =>
        let msg := mkChunkFailMsg chapter_num i e
        (record_error chapter_num msg s, .error (.translationError msg))

/-- `ChapterProcessor.process_chapter` (chapter_processor.py lines 24-104)
from the point where the chunk list is known, modelled with a progress
tracker configured.  `chunks_count` is `len(self.chunker.split_text(text))`;
text extraction, the empty-text early return and title extraction are not
modelled (no claim depends on them).  `start_chapter` registers the chapter,
the chunk loop runs, and on success `complete_chapter` marks it complete and
the translated chunks are joined with a double newline; any exception is
caught by the outer handler (lines 97-104), which records it a second time
and wraps it in another `TranslationError`. -/
def process_chapter (translate : Nat → Except String String) (chapter_num chunks_count : Nat)
    (s0 : JobState) : JobState × Except PyExc String :=
  match start_chapter chapter_num chunks_count s0 with
  | .error pe =>
    let msg := mkChapterFailMsg chapter_num (pyExcMsg pe)
    (record_error chapter_num msg s0, .error (.translationError msg))
  | .ok s1 =>
    match processChunksLoop translate chapter_num chunks_count 0 chunks_count s1 [] with
    | (s2, .ok parts) =>
      match complete_chapter chapter_num s2 with
      | .ok s3 => (s3, .ok (String.intercalate "\n\n" parts))
      | .error pe =>
        let msg := mkChapterFailMsg chapter_num (pyExcMsg pe)
        (record_error chapter_num msg s2, .error (.translationError msg))
    | (s2, .error e) =>
      let msg := mkChapterFailMsg chapter_num (pyExcMsg e)
      (record_error chapter_num msg s2, .error (.translationError msg))

end ChapterProcessor

namespace BookTranslatorMono

/-- Message of the `TranslationError` raised when chunk `i` (0-based) fails
in `BookTranslator._translate_chapter` (translator.py line 800). -/
def mkChunkFailMsg (i : Nat) (e : String) : String :=
  "Failed to translate chunk " ++ toString (i + 1) ++ ": " ++ e

/-- The chunk loop of `BookTranslator._translate_chapter` (translator.py
lines 781-802): `for i, chunk in enumerate(chunks[start_chunk:],
start=start_chunk)` — it iterates only the chunks from `start_chunk` on, and
only their translations are accumulated.  `translate i` abstracts
`self._translate_chunk` on chunk `i`. -/
def translateChapterLoop (translate : Nat → Except String String) (chapter_num total : Nat) :
    Nat → Nat → JobState → List String → JobState × Except PyExc (List String)
  | _, 0, s, acc => (s, .ok acc.reverse)
  | i, rem + 1, s, acc =>
    match translate i with
    | .ok t =>
      match update_progress chapter_num (i + 1) (some total) s with
      | .ok s1 => translateChapterLoop translate chapter_num total (i + 1) rem s1 (t :: acc)
      | .error pe =>
        (record_error chapter_num (pyExcMsg pe) s, .error (.translationError (mkChunkFailMsg i (pyExcMsg pe))))
    | .error e =>
      (record_error chapter_num e s, .error (.translationError (mkChunkFailMsg i e)))

/-- `BookTranslator._translate_chapter` (translator.py lines 763-802),
modelled with a progress tracker configured, from the point where the chunk
list is known (`chunks_count` chunks): register the chapter, translate
chunks `start_chunk, ..., chunks_count - 1`, and return the translated
chunks joined by a double newline.  There is no exception handler here;
errors propagate to the caller. -/
def translate_chapter (translate : Nat → Except String String)
    (chapter_num chunks_count start_chunk : Nat) (s0 : JobState) :
    JobState × Except PyExc String :=
  match start_chapter chapter_num chunks_count s0 with
  | .error pe => (s0, .error pe)
  | .ok s1 =>
    match translateChapterLoop translate chapter_num chunks_count start_chunk
        (chunks_count - start_chunk) s1 [] with
    | (s2, .ok parts) => (s2, .ok (String.intercalate "\n\n" parts))
    | (s2, .error e) => (s2, .error e)

end BookTranslatorMono

/-! ### Book-level orchestration and the missing `is_chapter_completed`
(`src/translation/book_translator.py` lines 72-195 and
`src/translation/translator.py` lines 132-265) -/

/-- The methods the `ProgressTracker` class defines (progress.py lines
95-439): there is no `is_chapter_completed` among them. -/
def progressTrackerMethods : List String :=
  ["start_translation", "start_chapter", "update_progress", "complete_chapter",
   "record_error", "get_chapter_progress", "get_overall_progress", "load_progress",
   "cleanup", "add_callback", "remove_callback", "get_progress_summary",
   "_save_progress", "_notify_callbacks"]

/-- Python attribute lookup on a `ProgressTracker` instance: `AttributeError`
when the class defines no such method. -/
def getTrackerMethod (name : String) : Except PyExc String :=
  if progressTrackerMethods.contains name then .ok name else .error (.attributeError name)

/-- The chapter loop of `BookTranslator.translate_book`
(book_translator.py lines 110-160, equivalently translator.py lines
180-257): iterate chapters `1 .. num_chapters`; inside the requested range,
when a progress tracker is configured, first evaluate
`self.progress_tracker.is_chapter_completed(current_chapter)` — an attribute
lookup on the tracker.  `processChapter` abstracts
`ChapterProcessor.process_chapter` for one chapter; a `TranslationError`
from it is replaced by a placeholder chapter record and the loop continues
(book_translator.py lines 143-151), any other exception propagates.  The
branch where the lookup succeeds cannot be reached against this repository's
`ProgressTracker` (the method does not exist), and is modelled as not
skipping. -/
def translateBookLoop (hasTracker : Bool) (processChapter : Nat → Except PyExc String)
    (from_chapter to_chapter : Nat) : Nat → Nat → Except PyExc (List (Nat × String))
  | _, 0 => .ok []
  | current, rem + 1 =>
    if from_chapter ≤ current ∧ current ≤ to_chapter then
      match (if hasTracker then getTrackerMethod "is_chapter_completed" else .ok "") with
      | .error e => .error e
      | .ok _ =>
        match processChapter current with
        | .ok content =>
          (translateBookLoop hasTracker processChapter from_chapter to_chapter (current + 1) rem).map
            (fun rest => (current, content) :: rest)
        | .error (.translationError _) =>
          (translateBookLoop hasTracker processChapter from_chapter to_chapter (current + 1) rem).map
            (fun rest => (current, "[Translation failed for this chapter]") :: rest)
        | .error e => .error e
    else if to_chapter < current then .ok []
    else translateBookLoop hasTracker processChapter from_chapter to_chapter (current + 1) rem

/-- `BookTranslator.translate_book` from the point where the chapter list is
known (`num_chapters` document items): run the chapter loop; any exception
escaping it is caught by the outer handler (book_translator.py lines
184-195, translator.py lines 262-265) and wrapped in
`TranslationError("Translation failed: ...")`. -/
def translate_book (hasTracker : Bool) (processChapter : Nat → Except PyExc String)
    (from_chapter to_chapter num_chapters : Nat) : Except PyExc (List (Nat × String)) :=
  match translateBookLoop hasTracker processChapter from_chapter to_chapter 1 num_chapters with
  | .ok chapters => .ok chapters
  | .error e => .error (.translationError ("Translation failed: " ++ pyExcMsg e))

/-! ### Name resolution in `chunker.py` (the undefined `logger` and `text`)

`split_text` (chunker.py lines 56-58) binds `logger` as a variable local to
`split_text` itself; no `logger` is defined at module level.  The helper
methods nevertheless reference `logger` (lines 112, 145, 163, 164, 214) and
`_split_html_by_sentences` additionally references `text` (line 112) though
its parameter is named `html_text`.  Python resolves a name against the
local scope, then the module globals, then the builtins; a miss raises
`NameError` at the referencing statement. -/

/-- Module-level names of `chunker.py` (its imports and top-level classes). -/
def chunkerModuleNames : List String :=
  ["re", "List", "dataclass", "ChunkMetadata", "TextChunker"]

/-- The Python builtins referenced in `chunker.py` method bodies. -/
def pythonBuiltins : List String :=
  ["len", "print", "bool", "str", "max", "min", "enumerate", "range"]

/-- Local scope of `TextChunker._split_html_by_sentences` (chunker.py lines
98-132): its parameters and the variables assigned in its body. -/
def splitHtmlLocalNames : List String :=
  ["self", "html_text", "sentences", "chunks", "current_chunk", "sentence"]

/-- Local scope of `TextChunker._split_by_sentences` (chunker.py lines
134-165). -/
def splitPlainLocalNames : List String :=
  ["self", "text", "sentences", "chunks", "current_chunk", "sentence"]

/-- Python name resolution: local scope, then module globals, then builtins. -/
def nameResolves (locals : List String) (n : String) : Bool :=
  locals.contains n || chunkerModuleNames.contains n || pythonBuiltins.contains n

/-- `TextChunker._split_html_by_sentences` with name resolution modelled:
line 109 computes the sentence list, line 111 initialises `chunks`, and line
112 (`logger.debug(f"... {len(text)}")`) evaluates the names `logger` and
`text`, neither of which is in scope, raising `NameError`.  The remaining
statements — the accumulation loop (lines 115-130, embedded as `splitLoop`)
and `_clean_chunks` (line 132) — are unreachable. -/
def split_html_by_sentences_py (tc : TextChunker) (html_text : Str) :
    Except PyExc (List Str) :=
  if nameResolves splitHtmlLocalNames "logger" = false then .error (.nameError "logger")
  else if nameResolves splitHtmlLocalNames "text" = false then .error (.nameError "text")
  else .ok (clean_chunks tc (splitLoop tc (split_sentences_preserve_html html_text) [] []))

/-- `TextChunker._split_by_sentences` with name resolution modelled: line 144
computes the sentence list and line 145 (`logger.debug(...)`) evaluates
`logger`, which is not in scope either, raising `NameError` on every call.
The remaining statements — the accumulation loop (lines 147-161, embedded as
`splitLoop`) and the return (no `_clean_chunks` here) — are unreachable. -/
def split_by_sentences_py (tc : TextChunker) (text : Str) : Except PyExc (List Str) :=
  if nameResolves splitPlainLocalNames "logger" = false then .error (.nameError "logger")
  else .ok (splitLoop tc (split_sentences text) [] [])

/-- `TextChunker.split_text` with name resolution modelled (chunker.py lines
46-68): the emptiness guard and strategy dispatch run fine (lines 56-58 bind
a local `logger` for `split_text` itself), and then either helper raises
`NameError` at its first `logger.debug` statement. -/
def split_text_py (tc : TextChunker) (text : Str) : Except PyExc (List Str) :=
  if pyStrip text = [] then .ok []
  else if tc.preserve_html && has_html_content text then split_html_by_sentences_py tc text
  else split_by_sentences_py tc text

/-! ### Observers and concrete instances used by the theorems below -/

/-- The `error_count` of a chapter's record (0 when unknown). -/
def trackerErrorCount (chapter_number : Nat) : JobState → Nat
  | none => 0
  | some p =>
    match lookupChapter p.chapters chapter_number with
    | some cp => cp.error_count
    | none => 0

/-- Whether a chapter's record reports the chapter complete. -/
def chapterCompletedIn (chapter_number : Nat) : JobState → Bool
  | none => false
  | some p =>
    match lookupChapter p.chapters chapter_number with
    | some cp => cp.is_completed
    | none => false

/-- The tracker state during a chapter run: the base state `p` with chapter
`ch`'s record set to `cp` updated to `total_chunks = n`,
`completed_chunks = c` and `error_count = e`, and `current_chapter = ch`.
Used to describe the states threaded through the chunk loops. -/
def stagedState (p : TranslationProgress) (ch n c e : Nat) (cp : ChapterProgress) :
    TranslationProgress :=
  { p with
    chapters := setChapter p.chapters ch
      { cp with total_chunks := n, completed_chunks := c, error_count := e }
    current_chapter := ch }

/-- Chunker configuration used in the C3 concrete evaluation. -/
def tcC3 : TextChunker :=
  { max_chunk_size := 10, overlap_size := 1, preserve_html := true, min_chunk_size := 1 }

/-- The chunker configuration with the source's default parameters
(chunker.py lines 25-31). -/
def tcDefault : TextChunker :=
  { max_chunk_size := 20000, overlap_size := 200, preserve_html := true, min_chunk_size := 1000 }

/-- Chunker configuration of the C8 counterexample. -/
def tcC8 : TextChunker :=
  { max_chunk_size := 10, overlap_size := 5, preserve_html := true, min_chunk_size := 1 }

/-- Deterministic translation stub for the resume scenario: chunk 0
translates to `First.`, every later chunk to `Second.`. -/
def trC1 : Nat → Except String String :=
  fun i => .ok (if i = 0 then "First." else "Second.")

/-- Persisted tracker state of a chapter with 2 chunks of which 1 is
completed (`completed_chunks = 1`), as left behind by an interrupted run. -/
def pC1 : TranslationProgress :=
  { total_chapters := 1, completed_chapters := 0, current_chapter := 1,
    chapters := [(1, { chapter_number := 1, total_chunks := 2, completed_chunks := 1,
                       error_count := 0 })] }

/-- Fresh tracker state for an uninterrupted run of the same chapter. -/
def pC1f : TranslationProgress :=
  { total_chapters := 1, completed_chapters := 0, current_chapter := 1, chapters := [] }

/-- Tracker-operation sequence for the C2 counterexample: a single chapter
with one chunk is started and its chunk completed via `update_progress`. -/
def seqC2A : List TrackerOp :=
  [.startTranslation 1, .startChapter 1 1, .updateProgress 1 1 (some 1)]

/-- Tracker-operation sequence completing two one-chunk chapters. -/
def seqC2B : List TrackerOp :=
  [.startTranslation 2, .startChapter 1 1, .completeChapter 1,
   .startChapter 2 1, .completeChapter 2]

/-- Continuation of `seqC2B`: chapter 1 is re-registered with more chunks
(resuming after a re-chunking) and `complete_chapter 2` recomputes the
job-level counter. -/
def seqC2B7 : List TrackerOp :=
  seqC2B ++ [.startChapter 1 3, .completeChapter 2]

/-- Concrete state for the C2 amended witness: one chapter, all chunks done. -/
def pW2 : TranslationProgress :=
  { total_chapters := 1, completed_chapters := 0, current_chapter := 1,
    chapters := [(1, { chapter_number := 1, total_chunks := 2, completed_chunks := 2,
                       error_count := 0 })] }

/-- Result of `complete_chapter 1` on `pW2`. -/
def pW2done : TranslationProgress :=
  { total_chapters := 1, completed_chapters := 1, current_chapter := 1,
    chapters := [(1, { chapter_number := 1, total_chunks := 2, completed_chunks := 2,
                       error_count := 0 })] }

/-- Completion oracle for the C4 witness: a rate-limited failure, a generic
failure, then success. -/
def cW4 : Nat → Except String String :=
  fun i =>
    if i = 0 then .error "Rate limit exceeded"
    else if i = 1 then .error "boom" else .ok " Bonjour. "

/-- Per-chunk translation outcomes for the C5 witness: chunk 1 succeeds,
chunk 2 (and any other) fails. -/
def trC5 : Nat → Except String String :=
  fun i => if i = 1 then .ok "t1" else .error "boom"

/-- Chapter 1's record in `pC5`: 3 chunks, 1 already completed. -/
def cpC5 : ChapterProgress :=
  { chapter_number := 1, total_chunks := 3, completed_chunks := 1, error_count := 0 }

/-- Persisted state for the C5 witness. -/
def pC5 : TranslationProgress :=
  { total_chapters := 1, completed_chapters := 0, current_chapter := 1,
    chapters := [(1, cpC5)] }

/-- Completion oracle that always returns a whitespace-only response. -/
def alwaysBlank : Nat → Except String String :=
  fun _ => .ok " "

/-- Completion oracle for the C6 witness: an empty response, then success. -/
def cEmptyThenOk : Nat → Except String String :=
  fun i => if i = 0 then .ok "  " else .ok "Done."

/-- Abstract per-chapter processor for the C9 witness (never reached). -/
def procAbs : Nat → Except PyExc String :=
  fun _ => .ok "content"

/-! ## Claim theorems -/

/-- Claim C3 (code bug): the claim bounds the chunks returned by the
plain-text split, but `TextChunker._split_by_sentences` can never return a
chunk: its statement `logger.debug(...)` (chunker.py line 145) references
`logger`, which is a local variable of `split_text` (lines 56-58) and not
defined in the method's scope, so every call raises `NameError` — the size
bound the claim (and the spec's chunk contract) states is unsatisfiable as
written.  Shown for every configuration and input, together with the scope
fact and an evaluation at the concrete plain-text input
`"ab. abcdef. x."` through the full `split_text` dispatch. -/
theorem C3_plain_split_always_raises (tc : TextChunker) (text : Str) :
    split_by_sentences_py tc text = .error (.nameError "logger")
  ∧ nameResolves splitPlainLocalNames "logger" = false
  ∧ split_text_py tcC3 "ab. abcdef. x.".toList = .error (.nameError "logger") := by
  have hnr : nameResolves splitPlainLocalNames "logger" = false := by decide
  exact ⟨by rw [split_by_sentences_py, if_pos hnr], hnr, by decide⟩

/-- Claim C7 (code bug): the claim says every chunk of the plain-text split
is returned ending with `.`, `!` or `?`, a `.` being appended when missing;
in the code (a) the plain-text split never returns any chunk — for every
non-whitespace input dispatched to it, `split_text` propagates the
`NameError` raised at `_split_by_sentences`' first `logger.debug`
(chunker.py line 145) — and (b) the `.`-appending is implemented only in
`_clean_chunks`, which just the HTML-aware split invokes (line 132): the
concrete `clean_chunks` evaluation shows where the claimed post-processing
actually lives, appending `.` to the unpunctuated `"abc"`. -/
theorem C7_plain_split_raises_before_cleaning (tc : TextChunker) (text : Str)
    (ht : pyStrip text ≠ [])
    (hh : (tc.preserve_html && has_html_content text) = false) :
    split_text_py tc text = .error (.nameError "logger")
  ∧ clean_chunks tcDefault ["abc".toList] = ["abc.".toList]
  ∧ endsWithSentencePunct "abc".toList = false := by
  refine ⟨?_, by decide, by decide⟩
  have hnr : nameResolves splitPlainLocalNames "logger" = false := by decide
  rw [split_text_py, if_neg ht, hh, if_neg Bool.false_ne_true]
  rw [split_by_sentences_py, if_pos hnr]

/-- Witness for `C7_plain_split_raises_before_cleaning` on the plain text
`"abc"` with the default chunker configuration. -/
theorem C7_plain_split_raises_before_cleaning_witness :
    split_text_py tcDefault "abc".toList = .error (.nameError "logger")
  ∧ clean_chunks tcDefault ["abc".toList] = ["abc.".toList]
  ∧ endsWithSentencePunct "abc".toList = false :=
  C7_plain_split_raises_before_cleaning tcDefault "abc".toList (by decide) (by decide)

/-- Claim C8, as amended: `estimate_chunks` returns 0 for empty text and 1
for any non-empty text of length at most `max_chunk_size` (even when the
ceiling formula would give 2, because of the early return on line 275 of
chunker.py); only for longer text does it return
`ceil(length / (max_chunk_size - overlap_size))`, computed as
`(length + effective - 1) / effective` — characterised below by the two
ceiling inequalities. -/
theorem C8_estimate_chunks_amended (tc : TextChunker) (text : Str)
    (hov : tc.overlap_size < tc.max_chunk_size) :
    (text.length = 0 → estimate_chunks tc text = 0)
  ∧ (0 < text.length → text.length ≤ tc.max_chunk_size → estimate_chunks tc text = 1)
  ∧ (tc.max_chunk_size < text.length →
      estimate_chunks tc text =
        (text.length + (tc.max_chunk_size - tc.overlap_size) - 1) /
          (tc.max_chunk_size - tc.overlap_size)
      ∧ (tc.max_chunk_size - tc.overlap_size) * (estimate_chunks tc text - 1) < text.length
      ∧ text.length ≤ (tc.max_chunk_size - tc.overlap_size) * estimate_chunks tc text) := by
  set e := tc.max_chunk_size - tc.overlap_size with he
  have he1 : 1 ≤ e := by omega
  refine ⟨fun h0 => by simp [estimate_chunks, h0], fun hp hle => by
    unfold estimate_chunks
    rw [if_neg (by omega), if_pos hle], fun hgt => ?_⟩
  have hL1 : 1 ≤ text.length := by omega
  have hq1 : 1 ≤ (text.length + e - 1) / e := by
    rw [Nat.one_le_div_iff (by omega)]; omega
  have heq : estimate_chunks tc text = (text.length + e - 1) / e := by
    unfold estimate_chunks
    rw [if_neg (by omega), if_neg (by omega)]
    simp only [← he]
    omega
  refine ⟨heq, ?_, ?_⟩
  · rw [heq]
    have hdm := Nat.div_add_mod (text.length + e - 1) e
    have hmod : (text.length + e - 1) % e < e := Nat.mod_lt _ (by omega)
    set q := (text.length + e - 1) / e with hqd
    have hq : e * (q - 1) + e = e * q := by
      have : q - 1 + 1 = q := by omega
      calc e * (q - 1) + e = e * (q - 1 + 1) := by ring
        _ = e * q := by rw [this]
    set A := e * (q - 1) with hA
    set B := e * q with hB
    omega
  · rw [heq]
    have hdm := Nat.div_add_mod (text.length + e - 1) e
    have hmod : (text.length + e - 1) % e < e := Nat.mod_lt _ (by omega)
    set q := (text.length + e - 1) / e with hqd
    set B := e * q with hB
    omega

/-- Witness for `C8_estimate_chunks_amended` on the non-empty short text
`"hi."` with the C8 configuration (`max_chunk_size = 10`,
`overlap_size = 5`). -/
theorem C8_estimate_chunks_amended_witness :
    estimate_chunks tcC8 "hi.".toList = 1 :=
  (C8_estimate_chunks_amended tcC8 "hi.".toList (by decide)).2.1 (by decide) (by decide)

/-- Counterexample to claim C8 as stated: with `max_chunk_size = 10` and
`overlap_size = 5`, the 7-character text `"abcdefg"` is non-empty, yet
`estimate_chunks` returns 1 (early return for text at most one chunk long)
while the claimed formula `ceil(7 / 5)` gives 2. -/
theorem C8_estimate_chunks_counterexample :
    estimate_chunks tcC8 "abcdefg".toList = 1
  ∧ ("abcdefg".toList.length + (tcC8.max_chunk_size - tcC8.overlap_size) - 1) /
      (tcC8.max_chunk_size - tcC8.overlap_size) = 2
  ∧ (1 : Nat) ≠ 2 := by
  decide

/-- Claim C2, as amended: the job-level `completed_chapters` counter is
recomputed as the count of chapter records with `completed_chunks ≥
total_chunks` only by `start_translation` and by `complete_chapter` on an
existing chapter; `start_chapter`, `update_progress` and `record_error`
leave it untouched.  (The original claim — that the equality holds after
EVERY operation and the counter never decreases — fails: see the
counterexample.) -/
theorem C2_completed_chapters_amended :
    (∀ (t : Nat) (s : JobState),
      completedChaptersOf (start_translation t s) =
        completedCountOf (start_translation t s))
  ∧ (∀ (n : Nat) (p : TranslationProgress) (cp : ChapterProgress) (s1 : JobState),
      lookupChapter p.chapters n = some cp →
      complete_chapter n (some p) = .ok s1 →
      completedChaptersOf s1 = completedCountOf s1)
  ∧ (∀ (n tcn : Nat) (p : TranslationProgress) (s1 : JobState),
      start_chapter n tcn (some p) = .ok s1 →
      completedChaptersOf s1 = p.completed_chapters)
  ∧ (∀ (n c : Nat) (t : Option Nat) (p : TranslationProgress) (s1 : JobState),
      update_progress n c t (some p) = .ok s1 →
      completedChaptersOf s1 = p.completed_chapters)
  ∧ (∀ (n : Nat) (m : String) (p : TranslationProgress),
      completedChaptersOf (record_error n m (some p)) = p.completed_chapters) := by
  refine ⟨?_, ?_, ?_, ?_, ?_⟩
  · intro t s
    cases s <;> rfl
  · intro n p cp s1 hl hc
    simp only [complete_chapter] at hc
    rw [hl] at hc
    injection hc with h
    subst h
    rfl
  · intro n tcn p s1 h
    simp only [start_chapter] at h
    split at h <;> (injection h with h1; subst h1; rfl)
  · intro n c t p s1 h
    simp only [update_progress] at h
    split at h
    · exact absurd h (by simp)
    · injection h with h1; subst h1; rfl
    · injection h with h1; subst h1; rfl
  · intro n m p
    simp only [record_error]
    split <;> rfl

/-- Witness for `C2_completed_chapters_amended`: completing chapter 1 of
`pW2` produces `pW2done`, where the counter equals the completed count. -/
theorem C2_completed_chapters_amended_witness :
    completedChaptersOf (some pW2done) = completedCountOf (some pW2done) :=
  C2_completed_chapters_amended.2.1 1 pW2
    { chapter_number := 1, total_chunks := 2, completed_chunks := 2, error_count := 0 }
    (some pW2done) (by decide) (by decide)

/-- Counterexample to claim C2 as stated: after
`start_translation 1; start_chapter 1 1; update_progress 1 1 1` the only
chapter is complete (`completed_chunks = total_chunks = 1`) but the reported
`completed_chapters` is still 0 (`update_progress` never recomputes it); and
the counter DECREASES from 2 to 1 when a completed chapter is re-registered
with a larger `total_chunks` (resume after re-chunking) and a subsequent
`complete_chapter` recomputes the count. -/
theorem C2_completed_chapters_counterexample :
    ccAfter seqC2A = 0
  ∧ completedCountAfter seqC2A = 1
  ∧ ccAfter seqC2B = 2
  ∧ ccAfter seqC2B7 = 1 := by
  decide

/-- Run of the translator retry loop when the first success is at attempt
`j`: every earlier attempt fails, produces its classified sleep, and the
loop retries; attempt `j` returns the stripped response. -/
theorem ctAux_success (mr rd : Nat) (complete : Nat → Except String String) :
    ∀ (fuel attempt j : Nat) (s : String),
      attempt + fuel = mr → attempt ≤ j → j < mr →
      (∀ i, attempt ≤ i → i < j → isErrAt complete i = true) →
      complete j = .ok s →
      ChapterTranslator.translateChunkAux mr rd complete attempt fuel =
        (sleepsSeg rd complete attempt (j - attempt), .ok (pyStripS s)) := by
  intro fuel
  induction fuel with
  | zero => intro attempt j s hsum hle hlt _ _; omega
  | succ f ih =>
    intro attempt j s hsum hle hlt herr hok
    rcases Nat.eq_or_lt_of_le hle with rfl | hlt2
    · simp only [ChapterTranslator.translateChunkAux, hok, Nat.sub_self, sleepsSeg]
    · have hiErr := herr attempt le_rfl hlt2
      cases hca : complete attempt with
      | ok r => simp [isErrAt, hca] at hiErr
      | error e =>
        have hbr : attempt + 1 < mr := by omega
        have hrec := ih (attempt + 1) j s (by omega) (by omega) hlt
          (fun i h1 h2 => herr i (by omega) h2) hok
        have hj : j - attempt = (j - (attempt + 1)) + 1 := by omega
        simp only [ChapterTranslator.translateChunkAux, hca, if_pos hbr, hrec, hj,
          sleepsSeg, sleepCons, errMsgAt]

/-- Run of the translator retry loop when every attempt fails: all
`max_retries` attempts are made, each non-final failure produces its
classified sleep, and the final failure raises a `TranslationError` carrying
the attempt budget and the last error. -/
theorem ctAux_allfail (mr rd : Nat) (complete : Nat → Except String String) :
    ∀ (fuel attempt : Nat),
      attempt + fuel = mr → attempt < mr →
      (∀ i, attempt ≤ i → i < mr → isErrAt complete i = true) →
      ChapterTranslator.translateChunkAux mr rd complete attempt fuel =
        (sleepsSeg rd complete attempt (mr - 1 - attempt),
         .error (.translationError (mkTranslationFailedMsg mr (errMsgAt complete (mr - 1))))) := by
  intro fuel
  induction fuel with
  | zero => intro attempt hsum hlt _; omega
  | succ f ih =>
    intro attempt hsum hlt herr
    have hiErr := herr attempt le_rfl hlt
    cases hca : complete attempt with
    | ok r => simp [isErrAt, hca] at hiErr
    | error e =>
      by_cases hbr : attempt + 1 < mr
      · have hrec := ih (attempt + 1) (by omega) hbr (fun i h1 h2 => herr i (by omega) h2)
        have hm : mr - 1 - attempt = (mr - 1 - (attempt + 1)) + 1 := by omega
        simp only [ChapterTranslator.translateChunkAux, hca, if_pos hbr, hrec, hm,
          sleepsSeg, sleepCons, errMsgAt]
      · have hfin : attempt = mr - 1 := by omega
        have hm : mr - 1 - attempt = 0 := by omega
        simp only [ChapterTranslator.translateChunkAux, hca, if_neg hbr, hm, sleepsSeg]
        rw [← hfin, errMsgAt, hca]

/-- Every error the translator retry loop can produce is a
`TranslationError`. -/
theorem ctAux_error_kind (mr rd : Nat) (complete : Nat → Except String String) :
    ∀ (fuel attempt : Nat) (pe : PyExc),
      (ChapterTranslator.translateChunkAux mr rd complete attempt fuel).2 = .error pe →
      ∃ m, pe = .translationError m := by
  intro fuel
  induction fuel with
  | zero => intro attempt pe h; simp [ChapterTranslator.translateChunkAux] at h
  | succ f ih =>
    intro attempt pe h
    simp only [ChapterTranslator.translateChunkAux] at h
    cases hca : complete attempt with
    | ok r => rw [hca] at h; simp at h
    | error e =>
      rw [hca] at h
      dsimp only at h
      by_cases hbr : attempt + 1 < mr
      · rw [if_pos hbr] at h
        exact ih (attempt + 1) pe (by simpa [sleepCons] using h)
      · rw [if_neg hbr] at h
        simp at h
        exact ⟨mkTranslationFailedMsg mr e, h.symm⟩

/-- Claim C4: within one chunk-translate call of
`ChapterTranslator._translate_chunk` (identically
`BookTranslator._translate_chunk` in translator.py) with at least one
attempt allowed: (1) when the first successful attempt is `j`, every earlier
(necessarily non-final) failure sleeps `retry_delay` seconds if its message
contains a rate-limit/quota marker and 5 seconds otherwise, and the call
returns the stripped response; (2) when every attempt fails, the non-final
failures produce the same classified sleeps and the call raises a
`TranslationError` carrying the attempt count and the last error; (3) no
other error kind ever escapes this layer. -/
theorem C4_retry_policy (mr rd : Nat) (complete : Nat → Except String String)
    (hmr : 1 ≤ mr) :
    (∀ j s, j < mr → (∀ i, i < j → isErrAt complete i = true) → complete j = .ok s →
      ChapterTranslator.translate_chunk mr rd complete =
        (sleepsSeg rd complete 0 j, .ok (pyStripS s)))
  ∧ ((∀ i, i < mr → isErrAt complete i = true) →
      ChapterTranslator.translate_chunk mr rd complete =
        (sleepsSeg rd complete 0 (mr - 1),
         .error (.translationError (mkTranslationFailedMsg mr (errMsgAt complete (mr - 1))))))
  ∧ (∀ pe, (ChapterTranslator.translate_chunk mr rd complete).2 = .error pe →
      ∃ m, pe = .translationError m) := by
  refine ⟨fun j s hj herr hok => ?_, fun herr => ?_, fun pe h => ?_⟩
  · have := ctAux_success mr rd complete mr 0 j s (by omega) (Nat.zero_le j) hj
      (fun i _ h2 => herr i h2) hok
    simpa [ChapterTranslator.translate_chunk] using this
  · have := ctAux_allfail mr rd complete mr 0 (by omega) (by omega)
      (fun i _ h2 => herr i h2)
    simpa [ChapterTranslator.translate_chunk] using this
  · exact ctAux_error_kind mr rd complete mr 0 pe h

/-- Witness for `C4_retry_policy`: with budget 3 and `retry_delay = 180`,
the oracle `cW4` (rate-limited failure, generic failure, then success)
produces sleeps `[180, 5]` and the stripped translation. -/
theorem C4_retry_policy_witness :
    ChapterTranslator.translate_chunk 3 180 cW4 = ([180, 5], .ok "Bonjour.") := by
  rw [(C4_retry_policy 3 180 cW4 (by decide)).1 2 " Bonjour. " (by decide) (by decide)
    (by decide)]
  decide

/-- Claim C1 (evaluating the code at the failing input): for the chapter
whose two chunks translate (under the deterministic stub `trC1`) to
`First.` and `Second.`, the uninterrupted run returns
`First.\n\nSecond.`, but re-invoking chapter processing with resume cursor
`k = 1` — via `BookTranslator._translate_chapter` with `start_chunk = 1`,
or via `ChapterProcessor.process_chapter` against the persisted state
`pC1` with `completed_chunks = 1` — returns only `Second.`: the
translations of the chunks before the cursor are dropped from the final
content, so the resumed content differs from the uninterrupted one. -/
theorem C1_resume_truncates_content :
    (BookTranslatorMono.translate_chapter trC1 1 2 1 (some pC1)).2 = .ok "Second."
  ∧ (BookTranslatorMono.translate_chapter trC1 1 2 0 (some pC1f)).2 =
      .ok "First.\n\nSecond."
  ∧ (ChapterProcessor.process_chapter trC1 1 2 (some pC1)).2 = .ok "Second."
  ∧ (ChapterProcessor.process_chapter trC1 1 2 (some pC1f)).2 =
      .ok "First.\n\nSecond."
  ∧ ("Second." : String) ≠ "First.\n\nSecond." := by
  decide

/-- The processor retry loop never returns an empty string as a success. -/
theorem procAux_ok_nonempty (mr rd : Nat) (complete : Nat → Except String String) :
    ∀ (fuel attempt : Nat) (s : String),
      (ChapterProcessor.translateChunkAux mr rd complete attempt fuel).2.2 = .ok s →
      s ≠ "" := by
  intro fuel
  induction fuel with
  | zero => intro attempt s h; simp [ChapterProcessor.translateChunkAux] at h
  | succ f ih =>
    intro attempt s h
    simp only [ChapterProcessor.translateChunkAux] at h
    cases hca : complete attempt with
    | ok r =>
      rw [hca] at h
      dsimp only at h
      by_cases hemp : pyStripS r = ""
      · rw [if_pos hemp] at h
        by_cases hbr : attempt + 1 < mr
        · rw [if_pos hbr] at h
          exact ih (attempt + 1) s (by simpa [retryStep] using h)
        · rw [if_neg hbr] at h; simp at h
      · rw [if_neg hemp] at h
        simp at h
        rw [← h]
        exact hemp
    | error e =>
      rw [hca] at h
      dsimp only at h
      by_cases hbr : attempt + 1 < mr
      · rw [if_pos hbr] at h
        exact ih (attempt + 1) s (by simpa [retryStep] using h)
      · rw [if_neg hbr] at h; simp at h

/-- Run of the processor retry loop when the first usable (non-raising,
non-empty-after-strip) response is at attempt `j`: every earlier attempt —
including those that returned an empty response — fails, sleeps
`retry_delay`, and is retried; attempt `j` returns the stripped response. -/
theorem procAux_success (mr rd : Nat) (complete : Nat → Except String String) :
    ∀ (fuel attempt j : Nat) (s : String),
      attempt + fuel = mr → attempt ≤ j → j < mr →
      (∀ i, attempt ≤ i → i < j → ChapterProcessor.attemptFails complete i = true) →
      complete j = .ok s → pyStripS s ≠ "" →
      ChapterProcessor.translateChunkAux mr rd complete attempt fuel =
        (j - attempt + 1, List.replicate (j - attempt) rd, .ok (pyStripS s)) := by
  intro fuel
  induction fuel with
  | zero => intro attempt j s hsum hle hlt _ _ _; omega
  | succ f ih =>
    intro attempt j s hsum hle hlt herr hok hsne
    rcases Nat.eq_or_lt_of_le hle with rfl | hlt2
    · simp only [ChapterProcessor.translateChunkAux, hok, Nat.sub_self, List.replicate]
      rw [if_neg hsne]
    · have hiFail := herr attempt le_rfl hlt2
      have hbr : attempt + 1 < mr := by omega
      have hrec := ih (attempt + 1) j s (by omega) (by omega) hlt
        (fun i h1 h2 => herr i (by omega) h2) hok hsne
      have hj : j - attempt = (j - (attempt + 1)) + 1 := by omega
      cases hca : complete attempt with
      | ok r =>
        have hemp : pyStripS r = "" := by
          simpa [ChapterProcessor.attemptFails, hca] using hiFail
        simp only [ChapterProcessor.translateChunkAux, hca, if_pos hemp, if_pos hbr,
          hrec, retryStep, hj, List.replicate]
      | error e =>
        simp only [ChapterProcessor.translateChunkAux, hca, if_pos hbr, hrec,
          retryStep, hj, List.replicate]

/-- Run of the processor retry loop when every attempt fails (raises or
returns an empty response): all `max_retries` attempts are made, each
non-final failure sleeps `retry_delay`, and the final failure re-raises the
original exception. -/
theorem procAux_allfail (mr rd : Nat) (complete : Nat → Except String String) :
    ∀ (fuel attempt : Nat),
      attempt + fuel = mr → attempt < mr →
      (∀ i, attempt ≤ i → i < mr → ChapterProcessor.attemptFails complete i = true) →
      ChapterProcessor.translateChunkAux mr rd complete attempt fuel =
        (mr - attempt, List.replicate (mr - 1 - attempt) rd,
         .error (.raised (ChapterProcessor.failMsgAt complete (mr - 1)))) := by
  intro fuel
  induction fuel with
  | zero => intro attempt hsum hlt _; omega
  | succ f ih =>
    intro attempt hsum hlt herr
    have hiFail := herr attempt le_rfl hlt
    by_cases hbr : attempt + 1 < mr
    · have hrec := ih (attempt + 1) (by omega) hbr (fun i h1 h2 => herr i (by omega) h2)
      have hm : mr - 1 - attempt = (mr - 1 - (attempt + 1)) + 1 := by omega
      have hn : mr - attempt = (mr - (attempt + 1)) + 1 := by omega
      cases hca : complete attempt with
      | ok r =>
        have hemp : pyStripS r = "" := by
          simpa [ChapterProcessor.attemptFails, hca] using hiFail
        simp only [ChapterProcessor.translateChunkAux, hca, if_pos hemp, if_pos hbr,
          hrec, retryStep, hm, hn, List.replicate]
      | error e =>
        simp only [ChapterProcessor.translateChunkAux, hca, if_pos hbr, hrec,
          retryStep, hm, hn, List.replicate]
    · have hfin : attempt = mr - 1 := by omega
      have hm : mr - 1 - attempt = 0 := by omega
      have hn : mr - attempt = 1 := by omega
      cases hca : complete attempt with
      | ok r =>
        have hemp : pyStripS r = "" := by
          simpa [ChapterProcessor.attemptFails, hca] using hiFail
        simp only [ChapterProcessor.translateChunkAux, hca, if_pos hemp, if_neg hbr,
          hm, hn, List.replicate]
        rw [← hfin, ChapterProcessor.failMsgAt, hca]
      | error e =>
        simp only [ChapterProcessor.translateChunkAux, hca, if_neg hbr, hm, hn,
          List.replicate]
        rw [← hfin, ChapterProcessor.failMsgAt, hca]

/-- Claim C6, as amended: `ChapterProcessor._translate_chunk` treats an
empty (after stripping) completion response as a failed attempt — it is
retried within the same budget, and an empty string is never returned as the
successful translation of a non-empty chunk.  The claim does NOT hold for
`ChapterTranslator._translate_chunk` / `BookTranslator._translate_chunk`,
which return the stripped response unchecked (see the counterexample). -/
theorem C6_empty_result_amended (mr rd : Nat) (text : Str)
    (complete : Nat → Except String String)
    (htext : pyStrip text ≠ []) (hmr : 1 ≤ mr) :
    (∀ s, (ChapterProcessor.translate_chunk mr rd text complete).2.2 = .ok s → s ≠ "")
  ∧ (∀ j s, j < mr → (∀ i, i < j → ChapterProcessor.attemptFails complete i = true) →
      complete j = .ok s → pyStripS s ≠ "" →
      ChapterProcessor.translate_chunk mr rd text complete =
        (j + 1, List.replicate j rd, .ok (pyStripS s)))
  ∧ ((∀ i, i < mr → ChapterProcessor.attemptFails complete i = true) →
      ChapterProcessor.translate_chunk mr rd text complete =
        (mr, List.replicate (mr - 1) rd,
         .error (.raised (ChapterProcessor.failMsgAt complete (mr - 1))))) := by
  refine ⟨fun s h => ?_, fun j s hj herr hok hsne => ?_, fun herr => ?_⟩
  · rw [ChapterProcessor.translate_chunk, if_neg htext] at h
    exact procAux_ok_nonempty mr rd complete mr 0 s h
  · have := procAux_success mr rd complete mr 0 j s (by omega) (Nat.zero_le j) hj
      (fun i _ h2 => herr i h2) hok hsne
    rw [ChapterProcessor.translate_chunk, if_neg htext, this, Nat.sub_zero]
  · have := procAux_allfail mr rd complete mr 0 (by omega) (by omega)
      (fun i _ h2 => herr i h2)
    rw [ChapterProcessor.translate_chunk, if_neg htext, this, Nat.sub_zero, Nat.sub_zero]

/-- Witness for `C6_empty_result_amended`: against the oracle that returns
an empty response on attempt 0 and `Done.` on attempt 1, the processor makes
2 attempts, sleeps once, and returns `Done.`. -/
theorem C6_empty_result_amended_witness :
    ChapterProcessor.translate_chunk 3 180 "Hi.".toList cEmptyThenOk =
      (2, [180], .ok "Done.") := by
  rw [(C6_empty_result_amended 3 180 "Hi.".toList cEmptyThenOk (by decide)
    (by decide)).2.1 1 "Done." (by decide) (by decide) (by decide) (by decide)]
  decide

/-- Counterexample to claim C6 as stated: `ChapterTranslator._translate_chunk`
(and the identical `BookTranslator._translate_chunk`) performs no emptiness
check — against an oracle whose first response is whitespace-only, the call
immediately returns the empty string as a SUCCESS, with no retry and no
sleep. -/
theorem C6_empty_accepted_counterexample :
    ChapterTranslator.translate_chunk 3 180 alwaysBlank = ([], .ok "") := by
  decide

/-- When the book loop with a tracker reaches the first in-range chapter,
the `is_chapter_completed` attribute lookup raises `AttributeError`, which
escapes the loop (chapters before `from_chapter` are merely counted past). -/
theorem tbLoop_attr_error (proc : Nat → Except PyExc String) (fromC toC : Nat)
    (hft : fromC ≤ toC) :
    ∀ (rem current : Nat), current ≤ fromC → fromC < current + rem →
      translateBookLoop true proc fromC toC current rem =
        .error (.attributeError "is_chapter_completed") := by
  intro rem
  induction rem with
  | zero => intro current hc hlt; omega
  | succ r ih =>
    intro current hc hlt
    have hm : getTrackerMethod "is_chapter_completed" =
        .error (.attributeError "is_chapter_completed") := by decide
    by_cases heq : current = fromC
    · subst heq
      simp only [translateBookLoop]
      rw [if_pos ⟨le_rfl, hft⟩]
      simp [hm]
    · have hlt2 : current < fromC := by omega
      simp only [translateBookLoop]
      rw [if_neg (by omega), if_neg (by omega)]
      exact ih (current + 1) (by omega) (by omega)

/-- Claim C9: the completed-chapter skip check of
`BookTranslator.translate_book` (book_translator.py lines 118-119,
translator.py lines 188-191) calls `ProgressTracker.is_chapter_completed`, a
method the `ProgressTracker` class does not define; hence for every job with
a progress tracker configured and at least one chapter inside the requested
range, the check raises `AttributeError` before any chapter is translated —
whatever the chapter processor would do (`proc` is arbitrary and never
invoked) — and `translate_book` aborts with that `AttributeError` wrapped in
the job-level `TranslationError`. -/
theorem C9_missing_is_chapter_completed (proc : Nat → Except PyExc String)
    (from_chapter to_chapter num_chapters : Nat)
    (h1 : 1 ≤ from_chapter) (h2 : from_chapter ≤ to_chapter)
    (h3 : from_chapter ≤ num_chapters) :
    translate_book true proc from_chapter to_chapter num_chapters =
      .error (.translationError ("Translation failed: " ++
        pyExcMsg (.attributeError "is_chapter_completed")))
  ∧ progressTrackerMethods.contains "is_chapter_completed" = false := by
  refine ⟨?_, by decide⟩
  unfold translate_book
  rw [tbLoop_attr_error proc from_chapter to_chapter h2 num_chapters 1 h1 (by omega)]

/-- Witness for `C9_missing_is_chapter_completed` on a 3-chapter book with
the default range and an arbitrary processor stub. -/
theorem C9_missing_is_chapter_completed_witness :
    translate_book true procAbs 1 9999 3 =
      .error (.translationError ("Translation failed: " ++
        pyExcMsg (.attributeError "is_chapter_completed"))) :=
  (C9_missing_is_chapter_completed procAbs 1 9999 3 (by decide) (by decide)
    (by decide)).1

/-- Claim C10: on any non-whitespace input containing an HTML tag,
`split_text` with `preserve_html` dispatches to
`_split_html_by_sentences`, whose first `logger.debug` statement references
the names `logger` and `text`, neither of which is defined in that method's
scope — the call raises `NameError` (for `logger`, the first reference hit)
and never returns a chunk sequence. -/
theorem C10_html_split_name_error (tc : TextChunker) (text : Str)
    (hp : tc.preserve_html = true) (ht : pyStrip text ≠ [])
    (hh : has_html_content text = true) :
    split_text_py tc text = .error (.nameError "logger")
  ∧ nameResolves splitHtmlLocalNames "logger" = false
  ∧ nameResolves splitHtmlLocalNames "text" = false := by
  refine ⟨?_, by decide, by decide⟩
  rw [split_text_py, if_neg ht, hp, hh]
  simp only [Bool.and_self, if_pos rfl]
  have hnr : nameResolves splitHtmlLocalNames "logger" = false := by decide
  rw [split_html_by_sentences_py, if_pos hnr]
  simp

/-- Witness for `C10_html_split_name_error` on the HTML snippet
`"<p>Hi.</p>"` with the default chunker configuration. -/
theorem C10_html_split_name_error_witness :
    split_text_py tcDefault "<p>Hi.</p>".toList = .error (.nameError "logger") :=
  (C10_html_split_name_error tcDefault "<p>Hi.</p>".toList rfl (by decide)
    (by decide)).1

theorem lookupChapter_setChapter_self (l : List (Nat × ChapterProgress)) (n : Nat)
    (cp0 cp : ChapterProgress) (h : lookupChapter l n = some cp0) :
    lookupChapter (setChapter l n cp) n = some cp := by
  induction l with
  | nil => simp [lookupChapter] at h
  | cons e rest ih =>
    by_cases he : e.1 = n
    · simp [lookupChapter, setChapter, he]
    · simp only [lookupChapter, setChapter, if_neg he] at h ⊢
      exact ih h

theorem setChapter_setChapter (l : List (Nat × ChapterProgress)) (n : Nat)
    (a b : ChapterProgress) :
    setChapter (setChapter l n a) n b = setChapter l n b := by
  induction l with
  | nil => rfl
  | cons e rest ih =>
    by_cases he : e.1 = n
    · simp [setChapter, he, ih]
    · simp [setChapter, if_neg he, ih]

theorem lookupChapter_staged (p : TranslationProgress) (ch n c e : Nat)
    (cp cp0 : ChapterProgress) (hl : lookupChapter p.chapters ch = some cp0) :
    lookupChapter (stagedState p ch n c e cp).chapters ch =
      some { cp with total_chunks := n, completed_chunks := c, error_count := e } :=
  lookupChapter_setChapter_self p.chapters ch cp0 _ hl

theorem get_chapter_progress_staged (p : TranslationProgress) (ch n c e : Nat)
    (cp cp0 : ChapterProgress) (hl : lookupChapter p.chapters ch = some cp0) :
    get_chapter_progress ch (some (stagedState p ch n c e cp)) = c := by
  simp only [get_chapter_progress, lookupChapter_staged p ch n c e cp cp0 hl]

theorem update_progress_staged (p : TranslationProgress) (ch n c e c2 : Nat)
    (cp cp0 : ChapterProgress) (hl : lookupChapter p.chapters ch = some cp0) :
    update_progress ch c2 (some n) (some (stagedState p ch n c e cp)) =
      .ok (some (stagedState p ch n c2 e cp)) := by
  simp only [update_progress, lookupChapter_staged p ch n c e cp cp0 hl]
  simp only [stagedState, setChapter_setChapter, Option.getD]

theorem record_error_staged (p : TranslationProgress) (ch n c e : Nat) (m : String)
    (cp cp0 : ChapterProgress) (hl : lookupChapter p.chapters ch = some cp0) :
    record_error ch m (some (stagedState p ch n c e cp)) =
      some (stagedState p ch n c (e + 1) cp) := by
  simp only [record_error, lookupChapter_staged p ch n c e cp cp0 hl]
  simp only [stagedState, setChapter_setChapter]

theorem start_chapter_staged (p : TranslationProgress) (ch n : Nat)
    (cp : ChapterProgress) (hl : lookupChapter p.chapters ch = some cp) :
    start_chapter ch n (some p) =
      .ok (some (stagedState p ch n cp.completed_chunks cp.error_count cp)) := by
  simp only [start_chapter, hl, stagedState]

/-- Chunk loop of `process_chapter` when chunk `i` is the first whose
translation fails after the translator's internal retries: chunks before the
cursor are skipped, chunks from the cursor up to `i` succeed and advance the
cursor, and the failure at `i` records the error (leaving the cursor at `i`)
and raises a `TranslationError`. -/
theorem processChunksLoop_fail (translate : Nat → Except String String)
    (ch n : Nat) (p : TranslationProgress) (cp : ChapterProgress)
    (hl : lookupChapter p.chapters ch = some cp)
    (k i : Nat) (hk : k = cp.completed_chunks)
    (hsucc : ∀ j, k ≤ j → j < i → isErrAt translate j = false)
    (hfail : isErrAt translate i = true) (hki : k ≤ i) (hin : i < n) :
    ∀ (d j : Nat) (acc : List String), j ≤ i → i - j = d →
      ChapterProcessor.processChunksLoop translate ch n j (n - j)
          (some (stagedState p ch n (max k j) cp.error_count cp)) acc =
        (record_error ch
            (ChapterProcessor.mkChunkFailMsg ch i (errMsgAt translate i))
            (some (stagedState p ch n i cp.error_count cp)),
         .error (.translationError
            (ChapterProcessor.mkChunkFailMsg ch i (errMsgAt translate i)))) := by
  intro d
  induction d with
  | zero =>
    intro j acc hji hd
    have hj : j = i := by omega
    subst hj
    obtain ⟨m, hm⟩ : ∃ m, n - j = m + 1 := ⟨n - j - 1, by omega⟩
    rw [hm, show max k j = j from by omega]
    simp only [ChapterProcessor.processChunksLoop]
    rw [get_chapter_progress_staged p ch n j cp.error_count cp cp hl,
      if_neg (lt_irrefl j)]
    cases hti : translate j with
    | ok t => simp [isErrAt, hti] at hfail
    | error e =>
      simp [errMsgAt, hti]
  | succ dd ih =>
    intro j acc hji hd
    have hjlt : j < i := by omega
    obtain ⟨m, hm⟩ : ∃ m, n - j = m + 1 := ⟨n - j - 1, by omega⟩
    rw [hm]
    simp only [ChapterProcessor.processChunksLoop]
    rw [get_chapter_progress_staged p ch n (max k j) cp.error_count cp cp hl]
    by_cases hjk : j < k
    · rw [if_pos (by omega)]
      rw [show max k j = max k (j + 1) from by omega, show m = n - (j + 1) from by omega]
      exact ih (j + 1) acc (by omega) (by omega)
    · rw [if_neg (by omega)]
      have hok := hsucc j (by omega) hjlt
      cases htj : translate j with
      | error e => simp [isErrAt, htj] at hok
      | ok t =>
        rw [show max k j = j from by omega,
          update_progress_staged p ch n j cp.error_count (j + 1) cp cp hl]
        dsimp only
        have ih2 := ih (j + 1) (t :: acc) (by omega) (by omega)
        rw [show max k (j + 1) = j + 1 from by omega,
          show n - (j + 1) = m from by omega] at ih2
        exact ih2

/-- Claim C5: when translating chunk `i` of a chapter fails (after the chunk
translator's internal retries, abstracted by `translate i` raising), while
the persisted cursor was `k = completed_chunks ≤ i` and chunks `k, ..., i-1`
succeed, `process_chapter` records the error via the Progress Tracker and
propagates a `TranslationError` aborting the chapter; the chapter's
`completed_chunks` cursor ends at exactly `i` — it counts precisely the
chunks completed before the failure (the failed chunk is not marked
complete, and previously completed work is preserved) — and the chapter is
not marked completed.  (`error_count` rises by 2 because the outer handler
of `process_chapter` records the wrapped error a second time.) -/
theorem C5_chunk_failure_preserves_cursor (translate : Nat → Except String String)
    (ch n i : Nat) (p : TranslationProgress) (cp : ChapterProgress)
    (hl : lookupChapter p.chapters ch = some cp)
    (hki : cp.completed_chunks ≤ i) (hin : i < n)
    (hsucc : ∀ j, cp.completed_chunks ≤ j → j < i → isErrAt translate j = false)
    (hfail : isErrAt translate i = true) :
    (ChapterProcessor.process_chapter translate ch n (some p)).2 =
      .error (.translationError (ChapterProcessor.mkChapterFailMsg ch
        (ChapterProcessor.mkChunkFailMsg ch i (errMsgAt translate i))))
  ∧ get_chapter_progress ch (ChapterProcessor.process_chapter translate ch n (some p)).1 = i
  ∧ trackerErrorCount ch (ChapterProcessor.process_chapter translate ch n (some p)).1 =
      cp.error_count + 2
  ∧ chapterCompletedIn ch (ChapterProcessor.process_chapter translate ch n (some p)).1 =
      false := by
  have hloop := processChunksLoop_fail translate ch n p cp hl cp.completed_chunks i rfl
    hsucc hfail hki hin i 0 [] (Nat.zero_le i) (by omega)
  rw [show max cp.completed_chunks 0 = cp.completed_chunks from by omega,
    Nat.sub_zero] at hloop
  have hre1 := record_error_staged p ch n i cp.error_count
    (ChapterProcessor.mkChunkFailMsg ch i (errMsgAt translate i)) cp cp hl
  rw [hre1] at hloop
  have hres : ChapterProcessor.process_chapter translate ch n (some p) =
      (some (stagedState p ch n i (cp.error_count + 2) cp),
       .error (.translationError (ChapterProcessor.mkChapterFailMsg ch
         (ChapterProcessor.mkChunkFailMsg ch i (errMsgAt translate i))))) := by
    simp only [ChapterProcessor.process_chapter,
      start_chapter_staged p ch n cp hl, hloop]
    rw [record_error_staged p ch n i (cp.error_count + 1) _ cp cp hl]
    rfl
  rw [hres]
  refine ⟨rfl, get_chapter_progress_staged p ch n i (cp.error_count + 2) cp cp hl, ?_, ?_⟩
  · simp only [trackerErrorCount,
      lookupChapter_staged p ch n i (cp.error_count + 2) cp cp hl]
  · simp only [chapterCompletedIn,
      lookupChapter_staged p ch n i (cp.error_count + 2) cp cp hl,
      ChapterProgress.is_completed]
    simpa using by omega

/-- Witness for `C5_chunk_failure_preserves_cursor`: chapter 1 of `pC5` has
3 chunks with cursor 1; chunk 1 succeeds, chunk 2 fails — the run aborts
with a `TranslationError`, the cursor ends at 2, the error count at 2, and
the chapter is not completed. -/
theorem C5_chunk_failure_preserves_cursor_witness :
    (ChapterProcessor.process_chapter trC5 1 3 (some pC5)).2 =
      .error (.translationError (ChapterProcessor.mkChapterFailMsg 1
        (ChapterProcessor.mkChunkFailMsg 1 2 (errMsgAt trC5 2))))
  ∧ get_chapter_progress 1 (ChapterProcessor.process_chapter trC5 1 3 (some pC5)).1 = 2
  ∧ trackerErrorCount 1 (ChapterProcessor.process_chapter trC5 1 3 (some pC5)).1 =
      cpC5.error_count + 2
  ∧ chapterCompletedIn 1 (ChapterProcessor.process_chapter trC5 1 3 (some pC5)).1 =
      false :=
  C5_chunk_failure_preserves_cursor trC5 1 3 2 pC5 cpC5 (by decide) (by decide)
    (by decide) (by decide) (by decide)

end BookTx
